import Mathlib

/-!
Shallow embedding of the agent control loop of the
open-supply-chain-control-tower repository, translated from
`src/workflow/graph.py` and `src/workflow/router.py`.

Conventions of the embedding:
* Python strings are Lean `String`; the helpers below reproduce the
  Python string methods used by the source (`strip`, `lower`,
  `splitlines`, `split(marker, 1)[1]`, substring tests).
* `json.loads` is modelled as an abstract decoder
  `jp : String → Option Json`; a `json.JSONDecodeError` is `none`
  (the source catches exactly that exception and stores `None`).
* Network I/O (`requests.post` + `raise_for_status` + `.json()`)
  is modelled as an `HttpOutcome` oracle per endpoint call: a 2xx
  response with its extracted payload text, an HTTP status error
  (what `raise_for_status` raises), or any other raised exception
  (timeout, connection error, body decode error) with its message.
* Wall-clock time (`time.monotonic()`) is a `Nat` parameter `now`.
* Raised Python exceptions that escape a function are `Except.error`.
-/

/-- The whitespace characters stripped by Python `str.strip()`
(ASCII whitespace; the inputs of this program are covered by these). -/
def pyWhitespace : List Char := [' ', '\t', '\n', '\r', Char.ofNat 11, Char.ofNat 12]

def dropLeftWhile (bad : Char → Bool) (cs : List Char) : List Char := cs.dropWhile bad

def dropRightWhile (bad : Char → Bool) (cs : List Char) : List Char :=
  (cs.reverse.dropWhile bad).reverse

/-- Python `s.strip()` with no arguments. -/
def pyStrip (s : String) : String :=
  ⟨dropRightWhile (pyWhitespace.contains ·) (dropLeftWhile (pyWhitespace.contains ·) s.data)⟩

/-- Python `s.strip(chars)`: remove any of `chars` from both ends. -/
def pyStripChars (chars : List Char) (s : String) : String :=
  ⟨dropRightWhile (chars.contains ·) (dropLeftWhile (chars.contains ·) s.data)⟩

/-- Python `s.rstrip(chars)`: remove any of `chars` from the right end. -/
def pyRstripChars (chars : List Char) (s : String) : String :=
  ⟨dropRightWhile (chars.contains ·) s.data⟩

/-- Python `s.lower()` (ASCII case folding, which covers the
keyword tests the source performs). -/
def pyLower (s : String) : String := ⟨s.data.map Char.toLower⟩

/-- `pre` is a prefix of `s`, Python `s.startswith(pre)`. -/
def strStartsWith (s pre : String) : Bool := pre.data.isPrefixOf s.data

/-- Python `needle in s` for strings: substring containment. -/
def strContainsSub (s needle : String) : Bool :=
  go s.data
where
  go : List Char → Bool
    | [] => needle.data.isPrefixOf []
    | c :: rest => needle.data.isPrefixOf (c :: rest) || go rest

/-- Python `s.split(marker, 1)[1]`: everything after the first
occurrence of `marker`; the source only evaluates this under a
`startswith` guard, so the occurrence exists there (we return the
suffix after the first occurrence, `""` when there is none). -/
def afterFirst (marker : String) (s : String) : String :=
  ⟨go s.data⟩
where
  go : List Char → List Char
    | [] => []
    | c :: rest =>
      if marker.data.isPrefixOf (c :: rest) then (c :: rest).drop marker.data.length
      else go rest

/-- Python `str.splitlines()` for the line breaks this program can
meet (`\n`, `\r`, `\r\n`): no trailing empty line for a terminal
line break. -/
def splitlinesAux (acc : List Char) : List Char → List (List Char)
  | [] => [acc.reverse]
  | '\n' :: rest =>
    acc.reverse :: (if rest.isEmpty then [] else splitlinesAux [] rest)
  | '\r' :: '\n' :: rest =>
    acc.reverse :: (if rest.isEmpty then [] else splitlinesAux [] rest)
  | '\r' :: rest =>
    acc.reverse :: (if rest.isEmpty then [] else splitlinesAux [] rest)
  | c :: rest => splitlinesAux (c :: acc) rest

def pySplitlines (s : String) : List String :=
  if s.data.isEmpty then [] else (splitlinesAux [] s.data).map (⟨·⟩)

/-- JSON values as produced by `json.loads`. -/
inductive Json where
  | null
  | bool (b : Bool)
  | num (n : Int)
  | str (s : String)
  | arr (elems : List Json)
  | obj (fields : List (String × Json))

/-- Python truthiness of a decoded JSON value
(`None`, `False`, `0`, `""`, `[]`, `{}` are falsy). -/
def jsonTruthy : Json → Bool
  | .null => false
  | .bool b => b
  | .num n => n != 0
  | .str s => !s.isEmpty
  | .arr elems => !elems.isEmpty
  | .obj fields => !fields.isEmpty

/-- Python `dict.get key`, `None` when absent. -/
def jsonGet (fields : List (String × Json)) (key : String) : Option Json :=
  match fields.find? (fun kv => kv.fst = key) with
  | some kv => some kv.snd
  | none => none

/-- Truthiness of an optional Python string (`None` and `""` are falsy). -/
def truthyStr : Option String → Bool
  | none => false
  | some s => !s.isEmpty

/-- Truthiness of an optional JSON value. -/
def truthyJson : Option Json → Bool
  | none => false
  | some v => jsonTruthy v

/-- Result triple of `_parse_model_output` in `src/workflow/graph.py`. -/
structure ParseResult where
  action : Option String
  actionInput : Option Json
  finalAnswer : Option String

/-- One loop iteration of `_parse_model_output`: the three independent
`if` statements run on each line, each overwriting its own field. -/
def parseStep (jp : String → Option Json) (acc : ParseResult) (line : String) : ParseResult :=
  let stripped := pyStrip line
  let acc1 :=
    if strStartsWith stripped "Action:" then
      { acc with action := some (pyStrip (afterFirst "Action:" line)) }
    else acc
  let acc2 :=
    if strStartsWith stripped "Action Input:" then
      { acc1 with actionInput := jp (pyStrip (afterFirst "Action Input:" line)) }
    else acc1
  if strStartsWith stripped "Final Answer:" then
    { acc2 with finalAnswer := some (pyStrip (afterFirst "Final Answer:" line)) }
  else acc2

/-- `_parse_model_output` (graph.py, lines 112–127): scan the lines in
order, each marker's last matching line wins. -/
def parse_model_output (jp : String → Option Json) (modelOutput : String) : ParseResult :=
  (pySplitlines modelOutput).foldl (parseStep jp) ⟨none, none, none⟩

/-- Modelled from the spec (§4.3) for the refinement statement of C6:
the payload of the last line that starts (after stripping) with the
given marker. -/
def lastMarkerPayload (marker : String) (modelOutput : String) : Option String :=
  (((pySplitlines modelOutput).filter
      (fun l => strStartsWith (pyStrip l) marker)).getLast?).map
    (fun l => pyStrip (afterFirst marker l))

/-- A conversation entry as observed by `_collect_user_messages`:
either a typed message object (with `.type` and `.content`) or a
2-tuple `(role, text)`. -/
inductive Msg where
  | typed (role : String) (content : String)
  | pair (role : String) (text : String)

/-- The `Any` value stored in `intermediate_steps` and returned by
`_reflect_and_retry`: either message text (a final answer or an error
string) or a tool's structured result. -/
inductive RVal where
  | text (s : String)
  | tool (j : Json)

/-- `AgentState` from `src/state.py`. The optional-key `TypedDict` is
modelled with the defaults the source supplies at each access
(`state.get(key, default)` / `setdefault`). -/
structure AgentState where
  messages : List Msg := []
  intermediate_steps : List (String × RVal) := []
  thought_history : List String := []
  iteration_count : Nat := 0
  final_answer : Option String := none
  pending_action : Option String := none
  pending_action_input : Option Json := none
  last_model_output : Option String := none
  model_name : Option String := none
  intent : Option String := none
  start_time : Option Nat := none
  followup_count : Nat := 0

/-- The text `_collect_user_messages` keeps for one entry: the content
of a `human`-typed message, the second slot of a tuple, nothing for
other typed messages. -/
def msgText : Msg → Option String
  | .typed role content => if role = "human" then some content else none
  | .pair _ text => some text

/-- Python `l[-n:]`. -/
def takeLast {α : Type} (n : Nat) (l : List α) : List α := l.drop (l.length - n)

/-- `_collect_user_messages` (graph.py 73–82). -/
def collect_user_messages (s : AgentState) (limit : Nat) : List String :=
  takeLast limit (s.messages.filterMap msgText)

/-- `_is_cjk` (graph.py 85–86): any char in U+4E00..U+9FFF. -/
def is_cjk (text : String) : Bool :=
  text.data.any (fun ch => 0x4e00 ≤ ch.val.toNat && ch.val.toNat ≤ 0x9fff)

/-- `_detect_user_language` (graph.py 89–93): `"zh"` when some of the
last three user messages (scanned most recent first) contains a CJK
character, else `"en"`. -/
def detect_user_language (s : AgentState) : String :=
  match (collect_user_messages s 3).reverse.find? is_cjk with
  | some _ => "zh"
  | none => "en"

/-- Python `sep.join xs`. -/
def pyJoin (sep : String) : List String → String
  | [] => ""
  | [x] => x
  | x :: rest => x ++ sep ++ pyJoin sep rest

/-- The localized clarification message built by
`_handle_timeout_or_followup` (graph.py 354–363). -/
def zhClarification (combined : String) : String :=
  "我需要更多细节才能继续，" ++
  "我会把你补充的信息合并理解。\n" ++
  "当前已知：" ++
  (if combined.isEmpty then "（暂无）" else combined) ++ "\n\n" ++
  "请补充以下要点：\n" ++
  "- 你想要我完成的目标是什么？\n" ++
  "- 有哪些输入/文件/路径或约束？\n" ++
  "- 你期望的输出格式、示例或验收标准？"

/-- The default clarification message built by
`_handle_timeout_or_followup` (graph.py 365–372). -/
def enClarification (combined : String) : String :=
  "I need a bit more detail to proceed, and I will merge any add-on details you provide.\n" ++
  "Known so far: " ++ (if combined.isEmpty then "(none)" else combined) ++ "\n\n" ++
  "Please clarify:\n" ++
  "- What is the goal you want me to achieve?\n" ++
  "- What inputs/files/paths or constraints should I use?\n" ++
  "- What output format, example, or acceptance criteria do you expect?"

/-- The combined query echoed by the escalation: `" | ".join` of the
last three user messages, `""` when there are none. -/
def combinedQuery (s : AgentState) : String :=
  let recent := collect_user_messages s 3
  if recent.isEmpty then "" else pyJoin " | " recent

/-- `_handle_timeout_or_followup` (graph.py 343–374). The function
takes no argument describing the triggering cause: every call site
(timeout path, missing/unknown action, exhausted retries, model-client
failure) invokes this same state-only function. -/
def handle_timeout_or_followup (s : AgentState) : AgentState :=
  let combined := combinedQuery s
  let language := detect_user_language s
  let followups := s.followup_count
  if 5 ≤ followups then
    { s with final_answer := some "Sebastian is working on that!",
             pending_action := none }
  else
    let s1 := { s with followup_count := followups + 1 }
    if language = "zh" then
      { s1 with final_answer := some (zhClarification combined),
                pending_action := none }
    else
      { s1 with final_answer := some (enClarification combined),
                pending_action := none }

/-- `_check_runtime_limit` (graph.py 377–381): record `start_time` on
first call, and always report that the limit is not exceeded. -/
def check_runtime_limit (now : Nat) (s : AgentState) : AgentState × Bool :=
  match s.start_time with
  | none => ({ s with start_time := some now }, false)
  | some _ => (s, false)

/-- Outcome of one `requests.post(...)` call together with the
subsequent `raise_for_status()` and body extraction: `success payload`
is a 2xx reply whose extracted text field is `payload`; `httpError m`
is a non-2xx status (`raise_for_status` raises `requests.HTTPError`
rendering as `m`); `exn m` is any other raised exception (timeout,
connection failure, body decoding) rendering as `m`. -/
inductive HttpOutcome where
  | success (payload : String)
  | httpError (msg : String)
  | exn (msg : String)

/-- `_call_local_llm` (graph.py 31–70), instrumented with the list of
endpoints actually attempted (`"chat"` = `/api/chat`, `"generate"` =
`/api/generate`): the `/api/generate` fallback runs only inside the
`except requests.HTTPError` handler; any other exception from the chat
call is caught by the trailing `except Exception` and returned as the
`"Local LLM error: ..."` string directly. -/
def call_local_llm_run (chat gen : HttpOutcome) : String × List String :=
  match chat with
  | .success content => (pyStrip content, ["chat"])
  | .httpError _ =>
    (match gen with
     | .success response => (pyStrip response, ["chat", "generate"])
     | .httpError m => ("Local LLM error: " ++ m, ["chat", "generate"])
     | .exn m => ("Local LLM error: " ++ m, ["chat", "generate"]))
  | .exn m => ("Local LLM error: " ++ m, ["chat"])

/-- The return value of `_call_local_llm`. -/
def call_local_llm (chat gen : HttpOutcome) : String := (call_local_llm_run chat gen).1

/-- The characters `_sanitize_path` strips from both ends after
whitespace: backtick, single and double quote, and the three literal
mojibake characters of the source (`U+00E2`, `U+20AC`, `U+0153`). -/
def quoteStripChars : List Char := [Char.ofNat 96, Char.ofNat 39, Char.ofNat 34, 'â', '€', 'œ']

/-- The tail characters removed by the final `rstrip` of
`_sanitize_path`. -/
def tailStripChars : List Char :=
  ['.', ',', ';', ':', ')', ']', Char.ofNat 0x7d, '>', '\n', '\t', ' ']

/-- `_sanitize_path` (graph.py 139–140). -/
def sanitize_path (value : String) : String :=
  pyRstripChars tailStripChars (pyStripChars quoteStripChars (pyStrip value))

/-- Leftmost match of the regex `q([^q]+)q` for a one-character quote
`q`: the content between the first pair of consecutive `q`s enclosing
at least one character. -/
def firstBetween (q : Char) : List Char → Option (List Char)
  | [] => none
  | c :: rest =>
    if c = q then
      let content := rest.takeWhile (fun d => d != q)
      match rest.dropWhile (fun d => d != q) with
      | [] => none
      | _ :: _ => if content.isEmpty then firstBetween q rest else some content
    else firstBetween q rest

/-- A character ending the curly-quoted content class `[^â€]`. -/
def isCurlyStop (c : Char) : Bool := c = 'â' || c = '€'

/-- Leftmost match of the source's fourth quote pattern
`â€œ([^â€]+)â€` (the mojibake curly quotes appearing literally in
graph.py line 147). -/
def firstCurlyQuoted : List Char → Option (List Char)
  | [] => none
  | 'â' :: rest1 =>
    (match rest1 with
     | '€' :: 'œ' :: rest =>
       let content := rest.takeWhile (fun d => !isCurlyStop d)
       (match rest.dropWhile (fun d => !isCurlyStop d) with
        | 'â' :: '€' :: _ =>
          if content.isEmpty then firstCurlyQuoted rest1 else some content
        | _ => firstCurlyQuoted rest1)
     | _ => firstCurlyQuoted rest1)
  | _ :: rest => firstCurlyQuoted rest

/-- The character class `[^ \n\t]` of the path regexes. -/
def pathSpace (c : Char) : Bool := c = ' ' || c = '\n' || c = '\t'

/-- Lazy scan for `[^ \n\t]+?\.(?:ipynb|py)` after a `/`: accumulate
non-space content and stop at the first `.` (preceded by at least one
content character) that is followed by `ipynb` or `py`. -/
def extScan (acc : List Char) : List Char → Option (List Char)
  | [] => none
  | c :: rest =>
    if c = '.' && !acc.isEmpty &&
        ("ipynb".data.isPrefixOf rest || "py".data.isPrefixOf rest) then
      some (acc.reverse ++ '.' ::
        (if "ipynb".data.isPrefixOf rest then "ipynb".data else "py".data))
    else if pathSpace c then none
    else extScan (c :: acc) rest

/-- Leftmost match of `(/[^ \n\t]+?\.(?:ipynb|py))` (graph.py 152). -/
def firstExtPath : List Char → Option (List Char)
  | [] => none
  | c :: rest =>
    if c = '/' then
      match extScan [] rest with
      | some m => some ('/' :: m)
      | none => firstExtPath rest
    else firstExtPath rest

/-- Leftmost match of the greedy fallback `(/[^ \n\t]+)`
(graph.py 156). -/
def firstAbsPath : List Char → Option (List Char)
  | [] => none
  | c :: rest =>
    if c = '/' then
      let run := rest.takeWhile (fun d => !pathSpace d)
      if run.isEmpty then firstAbsPath rest else some ('/' :: run)
    else firstAbsPath rest

/-- `_extract_path_from_text` (graph.py 143–159): quoted/backticked
spans first (double quote, single quote, backtick, mojibake curly
quotes, in that order), then an absolute `.ipynb`/`.py` path, then any
absolute path; every match is passed through `_sanitize_path`. -/
def extract_path_from_text (text : String) : Option String :=
  if text.isEmpty then none
  else
    match firstBetween (Char.ofNat 34) text.data with
    | some m => some (sanitize_path ⟨m⟩)
    | none =>
    match firstBetween (Char.ofNat 39) text.data with
    | some m => some (sanitize_path ⟨m⟩)
    | none =>
    match firstBetween (Char.ofNat 96) text.data with
    | some m => some (sanitize_path ⟨m⟩)
    | none =>
    match firstCurlyQuoted text.data with
    | some m => some (sanitize_path ⟨m⟩)
    | none =>
    match firstExtPath text.data with
    | some m => some (sanitize_path ⟨m⟩)
    | none =>
    match firstAbsPath text.data with
    | some m => some (sanitize_path ⟨m⟩)
    | none => none

/-- `_valid_target_path` (graph.py 162–165): `fs` is the filesystem
oracle modelling `Path(path).expanduser().exists()`. -/
def valid_target_path (fs : String → Bool) : Option String → Bool
  | none => false
  | some p => if p.isEmpty then false else fs p

/-- The keyword list of `_should_analyze_code` (graph.py 172–182). -/
def analyzeKeywords : List String :=
  ["analyze", "understand", "explain", "logic", "model",
   "pipeline", "generate", "report", "prediction"]

/-- `_should_analyze_code` (graph.py 168–183). -/
def should_analyze_code (message : String) : Bool :=
  if message.isEmpty then false
  else analyzeKeywords.any (fun key => strContainsSub (pyLower message) key)

/-- `call_model` (graph.py 384–420). The system prompt and rendered
context (`_load_prompt`, `_render_state_context`) only feed the LLM
request, whose reply is supplied by the `chat`/`gen` outcome oracles,
so the rendered text itself is not modelled; `jp` is the JSON decoder,
`fs` the filesystem oracle of `_valid_target_path`, `now` the value of
`time.monotonic()` at this step. -/
def call_model (jp : String → Option Json) (fs : String → Bool) (now : Nat)
    (chat gen : HttpOutcome) (s : AgentState) : AgentState :=
  if truthyStr s.final_answer then s
  else
    let pr := check_runtime_limit now s
    if pr.2 then handle_timeout_or_followup pr.1
    else
      let s1 := pr.1
      let recent := collect_user_messages s1 1
      let user_message := (recent.getLast?).getD ""
      let candidate := extract_path_from_text user_message
      if truthyStr candidate && valid_target_path fs candidate &&
          should_analyze_code user_message then
        { s1 with pending_action := some "analyze_code_logic",
                  pending_action_input :=
                    some (.obj [("path", .str (candidate.getD ""))]),
                  final_answer := none }
      else
        let model_output := call_local_llm chat gen
        let s2 := { s1 with last_model_output := some model_output }
        if strStartsWith model_output "Local LLM error:" then
          handle_timeout_or_followup s2
        else
          let s3 := { s2 with
            thought_history := s2.thought_history ++ [model_output],
            iteration_count := s2.iteration_count + 1 }
          let p := parse_model_output jp model_output
          let s4 := { s3 with pending_action := p.action,
                              pending_action_input := p.actionInput }
          if truthyStr p.action then { s4 with final_answer := none }
          else if truthyStr p.finalAnswer then
            { s4 with final_answer := p.finalAnswer }
          else s4

/-- `route_next` (graph.py 528–533). -/
def route_next (s : AgentState) : String :=
  if truthyStr s.final_answer then "end"
  else if truthyStr s.pending_action then "execute_tool"
  else "end"

/-- Result of `_reflect_and_retry`: the `(success, result)` pair of the
source, the mutated state, and the number of model calls performed
(instrumentation). -/
structure RetryOut where
  success : Bool
  result : RVal
  state : AgentState
  modelCalls : Nat

/-- `_reflect_and_retry` (graph.py 428–472). `registry` is the
`_tool_registry()` table (tool name to callable; a raised tool
exception is `Except.error`); `llm k` is the string `_call_local_llm`
returns for the `k`-th reflection call of this episode; `fuel` is the
remaining `attempts` of the `for _ in range(attempts)` loop. The
reflection prompt (tool name, serialized input, error text) only feeds
the LLM request and is not modelled. -/
def reflect_and_retry (jp : String → Option Json)
    (registry : String → Option (Json → Except String Json))
    (llm : Nat → String) (fuel : Nat) (k : Nat) (s : AgentState)
    (action : String) (input : Json) (errMsg : String) : RetryOut :=
  match fuel with
  | 0 => ⟨false, .text errMsg, s, 0⟩
  | fuel' + 1 =>
    let out := llm k
    if strStartsWith out "Local LLM error:" then ⟨false, .text out, s, 1⟩
    else
      let s1 := { s with thought_history := s.thought_history ++ [out] }
      let p := parse_model_output jp out
      if truthyStr p.finalAnswer then
        ⟨true, .text (p.finalAnswer.getD ""),
          { s1 with final_answer := p.finalAnswer }, 1⟩
      else
        match p.action, p.actionInput with
        | some a, some (.obj kvs) =>
          if a.isEmpty then
            let r := reflect_and_retry jp registry llm fuel' (k+1) s1 action input errMsg
            { r with modelCalls := r.modelCalls + 1 }
          else
            (match registry a with
             | none =>
               let r := reflect_and_retry jp registry llm fuel' (k+1) s1 a (.obj kvs)
                 ("Unknown tool: " ++ a)
               { r with modelCalls := r.modelCalls + 1 }
             | some fn =>
               match fn (.obj kvs) with
               | .ok result => ⟨true, .tool result, s1, 1⟩
               | .error e =>
                 let r := reflect_and_retry jp registry llm fuel' (k+1) s1 a (.obj kvs) e
                 { r with modelCalls := r.modelCalls + 1 })
        | _, _ =>
          let r := reflect_and_retry jp registry llm fuel' (k+1) s1 action input errMsg
          { r with modelCalls := r.modelCalls + 1 }

/-- `result` is a Python dict (`isinstance(result, dict)`). -/
def isJsonDict : Json → Bool
  | .obj _ => true
  | _ => false

/-- `result.get(key)` on a decoded value known to be a dict. -/
def jget : Json → String → Option Json
  | .obj kvs, key => jsonGet kvs key
  | _, _ => none

/-- `execute_tool` (graph.py 475–525). `fmtAnalysis` abstracts the
pure string renderer `_format_code_analysis_result` (graph.py
186–340) and `fmtDemo` the inline f-string
`"{message}\nOpen the demo: {demo_url}"`: both only produce the text
promoted into `final_answer` and no claim depends on that text. -/
def execute_tool (jp : String → Option Json)
    (registry : String → Option (Json → Except String Json))
    (fmtAnalysis : AgentState → Json → String) (fmtDemo : Json → String)
    (llm : Nat → String) (now : Nat) (s : AgentState) : AgentState :=
  let pr := check_runtime_limit now s
  if pr.2 then handle_timeout_or_followup pr.1
  else
    let s0 := pr.1
    if !truthyStr s0.pending_action then handle_timeout_or_followup s0
    else
      let a := s0.pending_action.getD ""
      match registry a with
      | none =>
        let s1 := { s0 with intermediate_steps :=
          s0.intermediate_steps ++ [(a, .text ("Unknown tool: " ++ a))] }
        handle_timeout_or_followup s1
      | some fn =>
        match s0.pending_action_input with
        | some (.obj kvs) =>
          (match fn (.obj kvs) with
           | .ok result =>
             let s1 := { s0 with intermediate_steps :=
               s0.intermediate_steps ++ [(a, .tool result)] }
             if a = "analyze_code_logic" && isJsonDict result then
               { s1 with final_answer := some (fmtAnalysis s1 result) }
             else if isJsonDict result && truthyJson (jget result "demo_url") then
               { s1 with final_answer := some (fmtDemo result) }
             else s1
           | .error e =>
             let r := reflect_and_retry jp registry llm 3 0 s0 a (.obj kvs) e
             let s1 := { r.state with intermediate_steps :=
               r.state.intermediate_steps ++ [(a, r.result)] }
             if r.success then s1 else handle_timeout_or_followup s1)
        | other =>
          let initialInput :=
            match other with
            | some v => if jsonTruthy v then v else Json.obj []
            | none => Json.obj []
          let r := reflect_and_retry jp registry llm 3 0 s0 a initialInput
            "Action Input must be valid JSON object."
          let s1 := { r.state with intermediate_steps :=
            r.state.intermediate_steps ++ [(a, r.result)] }
          if r.success then s1 else handle_timeout_or_followup s1

/-- `_call_local_llm` in `src/workflow/router.py` (lines 18–30): a
single `/api/generate` call with NO exception handler — `requests.post`
and `raise_for_status` exceptions propagate to the caller
(`Except.error`). -/
def router_call_local_llm (post : HttpOutcome) : Except String String :=
  match post with
  | .success body => .ok (pyStrip body)
  | .httpError m => .error m
  | .exn m => .error m

/-- Python `s.split()`: split on whitespace runs, dropping empties. -/
def splitWsAux (cur : List Char) : List Char → List String
  | [] => if cur.isEmpty then [] else [⟨cur.reverse⟩]
  | c :: rest =>
    if pyWhitespace.contains c then
      if cur.isEmpty then splitWsAux [] rest
      else (⟨cur.reverse⟩ : String) :: splitWsAux [] rest
    else splitWsAux (c :: cur) rest

def pySplitWs (s : String) : List String := splitWsAux [] s.data

/-- `classify_intent` (router.py 33–59). The prompt built from the last
user message only feeds the LLM request (outcome oracle `post`); the
uncaught transport exception of `_call_local_llm` propagates out. -/
def classify_intent (post : HttpOutcome) (s : AgentState) : Except String AgentState :=
  match router_call_local_llm post with
  | .error e => .error e
  | .ok result =>
    let stripped := pyStrip result
    let normalized :=
      if stripped.isEmpty then ""
      else ((pySplitWs (pyLower stripped)).headD "")
    let intent :=
      if normalized = "chat" || strContainsSub normalized "chat" then "chat"
      else "task"
    .ok { s with intent := some intent }

theorem parseStep_action (jp : String → Option Json) (acc : ParseResult) (l : String) :
    (parseStep jp acc l).action =
      if strStartsWith (pyStrip l) "Action:" = true
      then some (pyStrip (afterFirst "Action:" l)) else acc.action := by
  unfold parseStep
  by_cases h1 : strStartsWith (pyStrip l) "Action:" = true <;>
    by_cases h2 : strStartsWith (pyStrip l) "Action Input:" = true <;>
      by_cases h3 : strStartsWith (pyStrip l) "Final Answer:" = true <;>
        simp [h1, h2, h3]

theorem parseStep_actionInput (jp : String → Option Json) (acc : ParseResult) (l : String) :
    (parseStep jp acc l).actionInput =
      if strStartsWith (pyStrip l) "Action Input:" = true
      then jp (pyStrip (afterFirst "Action Input:" l)) else acc.actionInput := by
  unfold parseStep
  by_cases h1 : strStartsWith (pyStrip l) "Action:" = true <;>
    by_cases h2 : strStartsWith (pyStrip l) "Action Input:" = true <;>
      by_cases h3 : strStartsWith (pyStrip l) "Final Answer:" = true <;>
        simp [h1, h2, h3]

theorem parseStep_finalAnswer (jp : String → Option Json) (acc : ParseResult) (l : String) :
    (parseStep jp acc l).finalAnswer =
      if strStartsWith (pyStrip l) "Final Answer:" = true
      then some (pyStrip (afterFirst "Final Answer:" l)) else acc.finalAnswer := by
  unfold parseStep
  by_cases h1 : strStartsWith (pyStrip l) "Action:" = true <;>
    by_cases h2 : strStartsWith (pyStrip l) "Action Input:" = true <;>
      by_cases h3 : strStartsWith (pyStrip l) "Final Answer:" = true <;>
        simp [h1, h2, h3]

theorem parse_foldl_action (jp : String → Option Json) (ls : List String) : ∀ acc : ParseResult,
    ((ls.foldl (parseStep jp) acc).action) =
      (((ls.filter (fun l => strStartsWith (pyStrip l) "Action:")).getLast?).elim
        acc.action (fun l => some (pyStrip (afterFirst "Action:" l)))) := by
  induction ls with
  | nil => intro acc; rfl
  | cons l ls ih =>
    intro acc
    rw [List.foldl_cons, ih, parseStep_action]
    by_cases h : strStartsWith (pyStrip l) "Action:" = true
    · have hfc : (l :: ls).filter (fun l => strStartsWith (pyStrip l) "Action:")
          = l :: ls.filter (fun l => strStartsWith (pyStrip l) "Action:") := by
        simp [List.filter_cons, h]
      rw [if_pos h, hfc]
      cases hf : ls.filter (fun l => strStartsWith (pyStrip l) "Action:") with
      | nil => rfl
      | cons x xs =>
        rw [List.getLast?_cons_cons]
        cases hg : (x :: xs).getLast? with
        | none => simp at hg
        | some y => rfl
    · have hfc : (l :: ls).filter (fun l => strStartsWith (pyStrip l) "Action:")
          = ls.filter (fun l => strStartsWith (pyStrip l) "Action:") := by
        simp [List.filter_cons, h]
      rw [if_neg h, hfc]

theorem parse_foldl_actionInput (jp : String → Option Json) (ls : List String) :
    ∀ acc : ParseResult,
    ((ls.foldl (parseStep jp) acc).actionInput) =
      (((ls.filter (fun l => strStartsWith (pyStrip l) "Action Input:")).getLast?).elim
        acc.actionInput (fun l => jp (pyStrip (afterFirst "Action Input:" l)))) := by
  induction ls with
  | nil => intro acc; rfl
  | cons l ls ih =>
    intro acc
    rw [List.foldl_cons, ih, parseStep_actionInput]
    by_cases h : strStartsWith (pyStrip l) "Action Input:" = true
    · have hfc : (l :: ls).filter (fun l => strStartsWith (pyStrip l) "Action Input:")
          = l :: ls.filter (fun l => strStartsWith (pyStrip l) "Action Input:") := by
        simp [List.filter_cons, h]
      rw [if_pos h, hfc]
      cases hf : ls.filter (fun l => strStartsWith (pyStrip l) "Action Input:") with
      | nil => rfl
      | cons x xs =>
        rw [List.getLast?_cons_cons]
        cases hg : (x :: xs).getLast? with
        | none => simp at hg
        | some y => rfl
    · have hfc : (l :: ls).filter (fun l => strStartsWith (pyStrip l) "Action Input:")
          = ls.filter (fun l => strStartsWith (pyStrip l) "Action Input:") := by
        simp [List.filter_cons, h]
      rw [if_neg h, hfc]

theorem parse_foldl_finalAnswer (jp : String → Option Json) (ls : List String) :
    ∀ acc : ParseResult,
    ((ls.foldl (parseStep jp) acc).finalAnswer) =
      (((ls.filter (fun l => strStartsWith (pyStrip l) "Final Answer:")).getLast?).elim
        acc.finalAnswer (fun l => some (pyStrip (afterFirst "Final Answer:" l)))) := by
  induction ls with
  | nil => intro acc; rfl
  | cons l ls ih =>
    intro acc
    rw [List.foldl_cons, ih, parseStep_finalAnswer]
    by_cases h : strStartsWith (pyStrip l) "Final Answer:" = true
    · have hfc : (l :: ls).filter (fun l => strStartsWith (pyStrip l) "Final Answer:")
          = l :: ls.filter (fun l => strStartsWith (pyStrip l) "Final Answer:") := by
        simp [List.filter_cons, h]
      rw [if_pos h, hfc]
      cases hf : ls.filter (fun l => strStartsWith (pyStrip l) "Final Answer:") with
      | nil => rfl
      | cons x xs =>
        rw [List.getLast?_cons_cons]
        cases hg : (x :: xs).getLast? with
        | none => simp at hg
        | some y => rfl
    · have hfc : (l :: ls).filter (fun l => strStartsWith (pyStrip l) "Final Answer:")
          = ls.filter (fun l => strStartsWith (pyStrip l) "Final Answer:") := by
        simp [List.filter_cons, h]
      rw [if_neg h, hfc]

theorem parse_model_output_action (jp : String → Option Json) (s : String) :
    (parse_model_output jp s).action = lastMarkerPayload "Action:" s := by
  unfold parse_model_output lastMarkerPayload
  rw [parse_foldl_action]
  cases (List.filter (fun l => strStartsWith (pyStrip l) "Action:")
      (pySplitlines s)).getLast? with
  | none => rfl
  | some l => rfl

theorem parse_model_output_actionInput (jp : String → Option Json) (s : String) :
    (parse_model_output jp s).actionInput = (lastMarkerPayload "Action Input:" s).bind
      (fun raw => jp raw) := by
  unfold parse_model_output lastMarkerPayload
  rw [parse_foldl_actionInput]
  cases (List.filter (fun l => strStartsWith (pyStrip l) "Action Input:")
      (pySplitlines s)).getLast? with
  | none => rfl
  | some l => rfl

theorem parse_model_output_finalAnswer (jp : String → Option Json) (s : String) :
    (parse_model_output jp s).finalAnswer = lastMarkerPayload "Final Answer:" s := by
  unfold parse_model_output lastMarkerPayload
  rw [parse_foldl_finalAnswer]
  cases (List.filter (fun l => strStartsWith (pyStrip l) "Final Answer:")
      (pySplitlines s)).getLast? with
  | none => rfl
  | some l => rfl

theorem ParseResult.eq_of_fields (p q : ParseResult) (h1 : p.action = q.action)
    (h2 : p.actionInput = q.actionInput) (h3 : p.finalAnswer = q.finalAnswer) : p = q := by
  cases p; cases q; cases h1; cases h2; cases h3; rfl

/-- C6: for every raw model text, `_parse_model_output` returns, for each
of the three markers `Action:`, `Action Input:`, `Final Answer:`, the
(stripped) text after the last line starting with that marker (for
`Action Input:` the JSON-decoded payload of that line); in particular an
output containing only `Final Answer: X` yields `(None, None, X)`, and
an output with `Action: T` followed by `Action Input: {...}` yields that
exact `T` and the decoded object even when `Final Answer` appears
earlier. -/
theorem c6_parser_last_occurrence_wins (jp : String → Option Json) (s : String) :
    ((parse_model_output jp s).action = lastMarkerPayload "Action:" s
      ∧ (parse_model_output jp s).actionInput
          = (lastMarkerPayload "Action Input:" s).bind (fun raw => jp raw)
      ∧ (parse_model_output jp s).finalAnswer = lastMarkerPayload "Final Answer:" s)
    ∧ parse_model_output jp "Final Answer: X" = ⟨none, none, some "X"⟩
    ∧ parse_model_output jp
        ("Final Answer: early\nAction: geo_lookup\nAction Input: \x7b\x7d")
      = ⟨some "geo_lookup", jp "\x7b\x7d", some "early"⟩ := by
  refine ⟨⟨parse_model_output_action jp s, parse_model_output_actionInput jp s,
    parse_model_output_finalAnswer jp s⟩, ?_, ?_⟩
  · refine ParseResult.eq_of_fields _ _ ?_ ?_ ?_
    · show (parse_model_output jp "Final Answer: X").action = none
      rw [parse_model_output_action]; decide
    · show (parse_model_output jp "Final Answer: X").actionInput = none
      rw [parse_model_output_actionInput,
        show lastMarkerPayload "Action Input:" "Final Answer: X" = none from by decide]
      rfl
    · show (parse_model_output jp "Final Answer: X").finalAnswer = some "X"
      rw [parse_model_output_finalAnswer]; decide
  · refine ParseResult.eq_of_fields _ _ ?_ ?_ ?_
    · show (parse_model_output jp
          ("Final Answer: early\nAction: geo_lookup\nAction Input: \x7b\x7d")).action
        = some "geo_lookup"
      rw [parse_model_output_action]; decide
    · show (parse_model_output jp
          ("Final Answer: early\nAction: geo_lookup\nAction Input: \x7b\x7d")).actionInput
        = jp "\x7b\x7d"
      rw [parse_model_output_actionInput,
        show lastMarkerPayload "Action Input:"
          ("Final Answer: early\nAction: geo_lookup\nAction Input: \x7b\x7d")
            = some "\x7b\x7d" from by decide]
      rfl
    · show (parse_model_output jp
          ("Final Answer: early\nAction: geo_lookup\nAction Input: \x7b\x7d")).finalAnswer
        = some "early"
      rw [parse_model_output_finalAnswer]; decide

/-- C7: for every raw model text whose last `Action Input:` line carries
a payload the JSON decoder rejects, `_parse_model_output` returns
`actionInput = none`; the embedded parser is a total function, so it
never raises. -/
theorem c7_malformed_action_input_yields_none (jp : String → Option Json) (s raw : String)
    (hlast : lastMarkerPayload "Action Input:" s = some raw)
    (hbad : jp raw = none) :
    (parse_model_output jp s).actionInput = none := by
  rw [parse_model_output_actionInput, hlast, Option.some_bind]
  exact hbad

/-- Witness for C7 at the concrete output `"Action Input: not json"`
with a decoder that rejects the payload. -/
theorem c7_malformed_action_input_yields_none_witness :
    lastMarkerPayload "Action Input:" "Action Input: not json" = some "not json"
    ∧ (fun _ => (none : Option Json)) "not json" = none
    ∧ (parse_model_output (fun _ => none) "Action Input: not json").actionInput = none :=
  ⟨by decide, rfl, c7_malformed_action_input_yields_none (fun _ => none)
    "Action Input: not json" "not json" (by decide) rfl⟩

theorem append_isEmpty_false (a b : String) (h : a.isEmpty = false) :
    (a ++ b).isEmpty = false := by
  rw [Bool.eq_false_iff]
  intro hab
  rw [String.isEmpty_iff] at hab
  have hd : a.data ++ b.data = [] := congrArg String.data hab
  have ha : a.data = [] := (List.append_eq_nil.mp hd).1
  have ha2 : a = "" := by
    cases a with
    | mk d =>
      have hd2 : d = [] := ha
      rw [hd2]
  rw [ha2] at h
  rw [Bool.eq_false_iff] at h
  exact h ((String.isEmpty_iff "").mpr rfl)

theorem check_runtime_limit_snd (now : Nat) (s : AgentState) :
    (check_runtime_limit now s).2 = false := by
  cases h : s.start_time <;> simp [check_runtime_limit, h]

theorem zhClarification_isEmpty (c : String) : (zhClarification c).isEmpty = false := by
  unfold zhClarification
  repeat apply append_isEmpty_false
  decide

theorem enClarification_isEmpty (c : String) : (enClarification c).isEmpty = false := by
  unfold enClarification
  repeat apply append_isEmpty_false
  decide

theorem handle_timeout_pending_none (s : AgentState) :
    (handle_timeout_or_followup s).pending_action = none := by
  unfold handle_timeout_or_followup
  by_cases h : 5 ≤ s.followup_count
  · simp [h]
  · by_cases hl : detect_user_language s = "zh" <;> simp [h, hl]

theorem handle_timeout_final_truthy (s : AgentState) :
    truthyStr (handle_timeout_or_followup s).final_answer = true := by
  unfold handle_timeout_or_followup
  by_cases h : 5 ≤ s.followup_count
  · simp [h, truthyStr]
    decide
  · by_cases hl : detect_user_language s = "zh" <;>
      simp [h, hl, truthyStr, zhClarification_isEmpty, enClarification_isEmpty]

/-- C1 (amended): `_check_runtime_limit` records `startTime` on first
entry into the loop and always returns `False`; the timeout guard
checked at the top of `call_model` and `execute_tool` therefore never
trips, no timeout escalation is ever invoked, and no model or tool
call is ever prevented by elapsed wall-clock time (there is no 10s
budget in the code). -/
theorem c1_timeout_guard_never_trips (now : Nat) (s : AgentState) :
    (check_runtime_limit now s).2 = false
    ∧ (s.start_time = none →
        (check_runtime_limit now s).1 = { s with start_time := some now })
    ∧ (∀ t, s.start_time = some t → (check_runtime_limit now s).1 = s) := by
  refine ⟨check_runtime_limit_snd now s, ?_, ?_⟩
  · intro h
    simp [check_runtime_limit, h]
  · intro t h
    simp [check_runtime_limit, h]

/-- Witness for C1 at `now = 7` on a fresh state and on a state whose
`startTime` is already set. -/
theorem c1_timeout_guard_never_trips_witness :
    (check_runtime_limit 7 {}).2 = false
    ∧ (check_runtime_limit 7 {}).1 = { ({} : AgentState) with start_time := some 7 }
    ∧ (check_runtime_limit 7 { start_time := some 3 }).1
        = { start_time := some 3 } :=
  ⟨(c1_timeout_guard_never_trips 7 {}).1,
   (c1_timeout_guard_never_trips 7 {}).2.1 rfl,
   (c1_timeout_guard_never_trips 7 { start_time := some 3 }).2.2 3 rfl⟩

/-- C1 counterexample: with `startTime = 0` and `now = 20` — elapsed
wall-clock far beyond the claimed 10s budget — `call_model` still
starts a new model call: the thought history grows, the iteration
counter increments, and the parsed final answer is adopted; no
follow-up escalation happens. -/
theorem c1_counterexample :
    (call_model (fun _ => none) (fun _ => false) 20
      (.success "Final Answer: hi") (.success "")
      { start_time := some 0 }).iteration_count = 1
    ∧ (call_model (fun _ => none) (fun _ => false) 20
        (.success "Final Answer: hi") (.success "")
        { start_time := some 0 }).thought_history = ["Final Answer: hi"]
    ∧ (call_model (fun _ => none) (fun _ => false) 20
        (.success "Final Answer: hi") (.success "")
        { start_time := some 0 }).final_answer = some "hi"
    ∧ (call_model (fun _ => none) (fun _ => false) 20
        (.success "Final Answer: hi") (.success "")
        { start_time := some 0 }).followup_count = 0 := by
  refine ⟨?_, ?_, ?_, ?_⟩ <;> decide

/-- C2 (amended): each invocation of `_handle_timeout_or_followup`
with `followupCount < 5` increments the counter by exactly 1 and sets
the localized clarification request; an invocation with
`followupCount ≥ 5` (the 6th and later of a session) leaves the
counter unchanged — it is not incremented — and sets the literal
canned terminal message `"Sebastian is working on that!"`. The
behavior depends only on the state, hence is independent of the
triggering cause (the function takes no cause argument). -/
theorem c2_followup_escalation (s : AgentState) :
    (s.followup_count < 5 →
      (handle_timeout_or_followup s).followup_count = s.followup_count + 1
      ∧ (handle_timeout_or_followup s).pending_action = none
      ∧ (handle_timeout_or_followup s).final_answer =
          some (if detect_user_language s = "zh" then zhClarification (combinedQuery s)
                else enClarification (combinedQuery s)))
    ∧ (5 ≤ s.followup_count →
      (handle_timeout_or_followup s).followup_count = s.followup_count
      ∧ (handle_timeout_or_followup s).pending_action = none
      ∧ (handle_timeout_or_followup s).final_answer
          = some "Sebastian is working on that!") := by
  constructor
  · intro h
    have h5 : ¬ 5 ≤ s.followup_count := by omega
    unfold handle_timeout_or_followup
    by_cases hl : detect_user_language s = "zh" <;> simp [h5, hl]
  · intro h
    unfold handle_timeout_or_followup
    simp [h]

/-- Witness for C2: a fresh session escalation increments 0 → 1; at
`followupCount = 5` (the 6th escalation) the canned message appears
and the counter stays 5. -/
theorem c2_followup_escalation_witness :
    (handle_timeout_or_followup {}).followup_count = 0 + 1
    ∧ (handle_timeout_or_followup { followup_count := 5 }).followup_count = 5
    ∧ (handle_timeout_or_followup { followup_count := 5 }).final_answer
        = some "Sebastian is working on that!" :=
  ⟨((c2_followup_escalation {}).1 (by decide)).1,
   ((c2_followup_escalation { followup_count := 5 }).2 (by decide)).1,
   ((c2_followup_escalation { followup_count := 5 }).2 (by decide)).2.2⟩

/-- C2 counterexample: on its 6th invocation (`followupCount = 5`)
the escalation does NOT increase the counter by 1 — the source checks
`followups >= 5` before incrementing, so the counter stays at 5. -/
theorem c2_counterexample :
    ¬ ((handle_timeout_or_followup { followup_count := 5 }).followup_count
        = 5 + 1) := by
  decide

/-- C3 (amended): `_call_local_llm` falls back to the plain completion
(`/api/generate`) endpoint only when the chat endpoint raises an HTTP
status error (`requests.HTTPError` from `raise_for_status`); any other
chat-call failure (timeout, connection error, body decoding) is caught
by the trailing `except Exception` and surfaced as the
`"Local LLM error: ..."` failure value immediately, without attempting
the generate endpoint. -/
theorem c3_generate_fallback_only_on_http_error (chat gen : HttpOutcome) :
    (∀ m, chat = .httpError m →
      (call_local_llm_run chat gen).2 = ["chat", "generate"])
    ∧ (∀ m, chat = .exn m →
      (call_local_llm_run chat gen).2 = ["chat"]
      ∧ (call_local_llm_run chat gen).1 = "Local LLM error: " ++ m)
    ∧ (∀ c, chat = .success c →
      (call_local_llm_run chat gen).2 = ["chat"]
      ∧ (call_local_llm_run chat gen).1 = pyStrip c) := by
  refine ⟨?_, ?_, ?_⟩
  · intro m hm
    subst hm
    cases gen <;> rfl
  · intro m hm
    subst hm
    exact ⟨rfl, rfl⟩
  · intro c hc
    subst hc
    exact ⟨rfl, rfl⟩

/-- Witness for C3: an HTTP-status failure of the chat endpoint leads
to both endpoints being attempted; a timeout exception leads to a
surfaced failure after the chat attempt alone. -/
theorem c3_generate_fallback_only_on_http_error_witness :
    (call_local_llm_run (.httpError "500") (.success "ok")).2 = ["chat", "generate"]
    ∧ (call_local_llm_run (.exn "ReadTimeout") (.success "ok")).2 = ["chat"]
    ∧ (call_local_llm_run (.exn "ReadTimeout") (.success "ok")).1
        = "Local LLM error: " ++ "ReadTimeout" :=
  ⟨(c3_generate_fallback_only_on_http_error (.httpError "500") (.success "ok")).1
      "500" rfl,
   ((c3_generate_fallback_only_on_http_error (.exn "ReadTimeout") (.success "ok")).2.1
      "ReadTimeout" rfl).1,
   ((c3_generate_fallback_only_on_http_error (.exn "ReadTimeout") (.success "ok")).2.1
      "ReadTimeout" rfl).2⟩

/-- C3 counterexample: the chat call fails with a timeout while the
generate endpoint would succeed, yet a failure value is surfaced with
only the chat endpoint attempted — refuting "the generate endpoint is
attempted with the same prompt before a failure value is surfaced" for
non-HTTP-status failures. -/
theorem c3_counterexample :
    (call_local_llm_run (.exn "ReadTimeout") (.success "recovered")).2 = ["chat"]
    ∧ strStartsWith (call_local_llm_run (.exn "ReadTimeout")
        (.success "recovered")).1 "Local LLM error:" = true := by
  exact ⟨rfl, by decide⟩

/-- C4 (amended): on the successful tool-execution path, `execute_tool`
does not clear `pendingAction` (nor `pendingActionInput`): after the
call the field still holds the consumed action name; it is only
overwritten by the next `call_model` parse or cleared by the
escalation paths. -/
theorem c4_pending_action_retained (jp : String → Option Json)
    (registry : String → Option (Json → Except String Json))
    (fmtA : AgentState → Json → String) (fmtD : Json → String)
    (llm : Nat → String) (now : Nat) (s : AgentState) (a : String)
    (fn : Json → Except String Json) (kvs : List (String × Json)) (result : Json)
    (ha : s.pending_action = some a) (hne : a.isEmpty = false)
    (hreg : registry a = some fn)
    (hinput : s.pending_action_input = some (.obj kvs))
    (hok : fn (.obj kvs) = .ok result) :
    (execute_tool jp registry fmtA fmtD llm now s).pending_action = some a
    ∧ (execute_tool jp registry fmtA fmtD llm now s).pending_action_input
        = s.pending_action_input := by
  constructor <;>
  · unfold execute_tool
    cases hst : s.start_time <;>
      simp [check_runtime_limit, hst, ha, hne, truthyStr, hinput, hreg, hok] <;>
      split <;> first | rfl | (split <;> rfl)

/-- Witness for C4 on a concrete state executing
`find_smes_by_location` successfully. -/
theorem c4_pending_action_retained_witness :
    (execute_tool (fun _ => none)
      (fun n => if n = "find_smes_by_location"
        then some (fun _ => Except.ok (Json.str "done")) else none)
      (fun _ _ => "") (fun _ => "") (fun _ => "") 0
      { pending_action := some "find_smes_by_location",
        pending_action_input := some (Json.obj []) }).pending_action
      = some "find_smes_by_location"
    ∧ (execute_tool (fun _ => none)
        (fun n => if n = "find_smes_by_location"
          then some (fun _ => Except.ok (Json.str "done")) else none)
        (fun _ _ => "") (fun _ => "") (fun _ => "") 0
        { pending_action := some "find_smes_by_location",
          pending_action_input := some (Json.obj []) }).pending_action_input
      = ({ pending_action := some "find_smes_by_location",
           pending_action_input := some (Json.obj []) } : AgentState).pending_action_input :=
  c4_pending_action_retained (fun _ => none)
    (fun n => if n = "find_smes_by_location"
      then some (fun _ => Except.ok (Json.str "done")) else none)
    (fun _ _ => "") (fun _ => "") (fun _ => "") 0
    { pending_action := some "find_smes_by_location",
      pending_action_input := some (Json.obj []) }
    "find_smes_by_location" (fun _ => Except.ok (Json.str "done")) [] (Json.str "done")
    rfl rfl rfl rfl rfl

/-- C4 counterexample: after `execute_tool` returns on this success
path, `pendingAction` still holds the consumed action name — refuting
"pendingAction no longer holds the consumed action name". -/
theorem c4_counterexample :
    ¬ ((execute_tool (fun _ => none)
      (fun n => if n = "load_registry"
        then some (fun _ => Except.ok (Json.str "ok")) else none)
      (fun _ _ => "") (fun _ => "") (fun _ => "") 0
      { pending_action := some "load_registry",
        pending_action_input := some (Json.obj []) }).pending_action
      ≠ some "load_registry") := by
  decide

/-- C5: after a model-call step entered with no active final answer,
at most one of `finalAnswer` / `pendingAction` is active: whenever the
resulting `pendingAction` is truthy (the parser found an action),
`finalAnswer` was cleared to `None`; and whenever the resulting
`finalAnswer` is truthy, `route_next` routes to `End`, not
`ExecuteTool` — a pending action is never executed in that case. -/
theorem c5_final_answer_pending_action_exclusive (jp : String → Option Json)
    (fs : String → Bool) (now : Nat) (chat gen : HttpOutcome) (s : AgentState)
    (h : truthyStr s.final_answer = false) :
    (truthyStr (call_model jp fs now chat gen s).pending_action = true →
        (call_model jp fs now chat gen s).final_answer = none)
    ∧ (truthyStr (call_model jp fs now chat gen s).final_answer = true →
        route_next (call_model jp fs now chat gen s) = "end") := by
  refine ⟨?_, fun hf => by simp [route_next, hf]⟩
  unfold call_model
  cases hst : s.start_time <;> simp [check_runtime_limit, hst, h] <;> split
  case isTrue => intro _; rfl
  case isTrue => intro _; rfl
  all_goals split
  case isTrue =>
    intro hcontra
    rw [handle_timeout_pending_none] at hcontra
    exact absurd hcontra (by decide)
  case isTrue =>
    intro hcontra
    rw [handle_timeout_pending_none] at hcontra
    exact absurd hcontra (by decide)
  all_goals split
  case isTrue => intro _; rfl
  case isTrue => intro _; rfl
  all_goals split
  all_goals next hac hfin => exact fun hcontra => absurd hcontra hac

/-- Witness for C5 on a fresh state with a model reply carrying a
final answer. -/
theorem c5_final_answer_pending_action_exclusive_witness :
    truthyStr ({} : AgentState).final_answer = false
    ∧ ((truthyStr (call_model (fun _ => none) (fun _ => false) 0
          (.success "Final Answer: done") (.success "") {}).pending_action = true →
        (call_model (fun _ => none) (fun _ => false) 0
          (.success "Final Answer: done") (.success "") {}).final_answer = none)
      ∧ (truthyStr (call_model (fun _ => none) (fun _ => false) 0
          (.success "Final Answer: done") (.success "") {}).final_answer = true →
        route_next (call_model (fun _ => none) (fun _ => false) 0
          (.success "Final Answer: done") (.success "") {}) = "end")) :=
  ⟨rfl, c5_final_answer_pending_action_exclusive (fun _ => none) (fun _ => false) 0
    (.success "Final Answer: done") (.success "") {} rfl⟩

theorem reflect_and_retry_modelCalls_le (jp : String → Option Json)
    (registry : String → Option (Json → Except String Json)) (llm : Nat → String) :
    ∀ (fuel k : Nat) (s : AgentState) (action : String) (input : Json) (errMsg : String),
    (reflect_and_retry jp registry llm fuel k s action input errMsg).modelCalls ≤ fuel := by
  intro fuel
  induction fuel with
  | zero =>
    intro k s action input errMsg
    exact Nat.le_refl 0
  | succ n ih =>
    intro k s action input errMsg
    simp only [reflect_and_retry]
    repeat' split
    all_goals
      first
        | exact Nat.succ_le_succ (Nat.zero_le n)
        | exact Nat.succ_le_succ (ih _ _ _ _ _)

/-- C8: `_reflect_and_retry` with the default `attempts = 3` (the only
call sites) makes at most 3 model calls per failure episode; it stops
immediately with success after one model call when the response
carries a (truthy) final answer, or when the response's action and
dict input execute successfully; and when the model client itself
fails (`"Local LLM error:"` reply) it aborts immediately with failure,
returning the model-client error text itself rather than a tool
error. -/
theorem c8_reflection_retry_bounded (jp : String → Option Json)
    (registry : String → Option (Json → Except String Json)) (llm : Nat → String)
    (k : Nat) (s : AgentState) (action : String) (input : Json) (errMsg : String) :
    (reflect_and_retry jp registry llm 3 k s action input errMsg).modelCalls ≤ 3
    ∧ (strStartsWith (llm k) "Local LLM error:" = true →
        reflect_and_retry jp registry llm 3 k s action input errMsg
          = ⟨false, .text (llm k), s, 1⟩)
    ∧ (∀ fin, strStartsWith (llm k) "Local LLM error:" = false →
        (parse_model_output jp (llm k)).finalAnswer = some fin →
        fin.isEmpty = false →
        reflect_and_retry jp registry llm 3 k s action input errMsg
          = ⟨true, .text fin,
              { s with thought_history := s.thought_history ++ [llm k],
                       final_answer := some fin }, 1⟩)
    ∧ (∀ a kvs fn result, strStartsWith (llm k) "Local LLM error:" = false →
        truthyStr (parse_model_output jp (llm k)).finalAnswer = false →
        (parse_model_output jp (llm k)).action = some a →
        a.isEmpty = false →
        (parse_model_output jp (llm k)).actionInput = some (.obj kvs) →
        registry a = some fn →
        fn (.obj kvs) = .ok result →
        reflect_and_retry jp registry llm 3 k s action input errMsg
          = ⟨true, .tool result,
              { s with thought_history := s.thought_history ++ [llm k] }, 1⟩) := by
  refine ⟨reflect_and_retry_modelCalls_le jp registry llm 3 k s action input errMsg,
    ?_, ?_, ?_⟩
  · intro h
    simp only [reflect_and_retry]
    simp [h]
  · intro fin h hf hfe
    simp only [reflect_and_retry]
    simp [h, hf, truthyStr, hfe]
  · intro a kvs fn result h htr ha hne hin hreg hok
    simp only [reflect_and_retry]
    simp [h, htr, ha, hne, hin, hreg, hok]

/-- Witness for C8 on three concrete episodes: a model-client failure
(1 call, failure, unmasked error), a final-answer reply (1 call,
success), and an action reply whose tool executes (1 call, success). -/
theorem c8_reflection_retry_bounded_witness :
    reflect_and_retry (fun _ => none) (fun _ => none)
        (fun _ => "Local LLM error: down") 3 0 {} "t" (Json.obj []) "boom"
      = ⟨false, .text "Local LLM error: down", {}, 1⟩
    ∧ reflect_and_retry (fun _ => none) (fun _ => none)
        (fun _ => "Final Answer: fixed") 3 0 {} "t" (Json.obj []) "boom"
      = ⟨true, .text "fixed",
          { thought_history := ["Final Answer: fixed"],
            final_answer := some "fixed" }, 1⟩
    ∧ reflect_and_retry (fun _ => some (Json.obj []))
        (fun _ => some (fun _ => Except.ok (Json.str "r")))
        (fun _ => "Action: geo\nAction Input: \x7b\x7d") 3 0 {} "t" (Json.obj []) "boom"
      = ⟨true, .tool (Json.str "r"),
          { thought_history := ["Action: geo\nAction Input: \x7b\x7d"] }, 1⟩ := by
  refine ⟨(c8_reflection_retry_bounded (fun _ => none) (fun _ => none)
      (fun _ => "Local LLM error: down") 0 {} "t" (Json.obj []) "boom").2.1 (by decide),
    ?_, ?_⟩
  · exact (c8_reflection_retry_bounded (fun _ => none) (fun _ => none)
      (fun _ => "Final Answer: fixed")
      0 {} "t" (Json.obj []) "boom").2.2.1 "fixed" (by decide) (by decide) (by decide)
  · exact (c8_reflection_retry_bounded (fun _ => some (Json.obj []))
      (fun _ => some (fun _ => Except.ok (Json.str "r")))
      (fun _ => "Action: geo\nAction Input: \x7b\x7d")
      0 {} "t" (Json.obj []) "boom").2.2.2 "geo" []
      (fun _ => Except.ok (Json.str "r")) (Json.str "r")
      (by decide) (by decide) (by decide) (by decide)
      (by rw [parse_model_output_actionInput,
            show lastMarkerPayload "Action Input:"
              "Action: geo\nAction Input: \x7b\x7d" = some "\x7b\x7d" from by decide]
          rfl)
      rfl rfl

theorem startsWith_append_of_startsWith (pre s t : String)
    (h : strStartsWith s pre = true) : strStartsWith (s ++ t) pre = true := by
  unfold strStartsWith at h ⊢
  rw [List.isPrefixOf_iff_prefix] at h ⊢
  have hdata : (s ++ t).data = s.data ++ t.data := rfl
  rw [hdata]
  exact h.trans (List.prefix_append s.data t.data)

/-- C9 (amended): inside the reasoning loop failures become ordinary
terminal text — every follow-up escalation sets a non-empty
`finalAnswer`, and `call_model` converts a model-transport failure into
such an escalation (or takes the model-free analysis shortcut) without
raising — but intent classification is NOT exception-safe: a transport
failure of the model backend inside `router._call_local_llm`
propagates uncaught out of `classify_intent`. -/
theorem c9_loop_failures_text_but_classifier_raises :
    (∀ e s, classify_intent (.exn e) s = .error e)
    ∧ (∀ e s, classify_intent (.httpError e) s = .error e)
    ∧ (∀ s, truthyStr (handle_timeout_or_followup s).final_answer = true)
    ∧ (∀ (jp : String → Option Json) (fs : String → Bool) (now : Nat)
        (m : String) (gen : HttpOutcome) (s : AgentState),
        truthyStr s.final_answer = false →
        truthyStr (call_model jp fs now (.exn m) gen s).final_answer = true
        ∨ (call_model jp fs now (.exn m) gen s).pending_action
            = some "analyze_code_logic") := by
  refine ⟨fun e s => rfl, fun e s => rfl, fun s => handle_timeout_final_truthy s, ?_⟩
  intro jp fs now m gen s h
  have herr : strStartsWith ("Local LLM error: " ++ m) "Local LLM error:" = true :=
    startsWith_append_of_startsWith "Local LLM error:" "Local LLM error: " m (by decide)
  unfold call_model
  cases hst : s.start_time <;>
    simp [check_runtime_limit, hst, h, call_local_llm, call_local_llm_run, herr] <;>
    split
  case isTrue => exact Or.inr rfl
  case isTrue => exact Or.inr rfl
  all_goals exact Or.inl (handle_timeout_final_truthy _)

/-- Witness for C9: a concrete connection failure during
classification propagates as an error; a concrete loop-level model
failure ends in escalation text. -/
theorem c9_loop_failures_text_but_classifier_raises_witness :
    classify_intent (.exn "boom") {} = .error "boom"
    ∧ truthyStr (handle_timeout_or_followup {}).final_answer = true
    ∧ (truthyStr (call_model (fun _ => none) (fun _ => false) 0
          (.exn "boom") (.success "") {}).final_answer = true
        ∨ (call_model (fun _ => none) (fun _ => false) 0
            (.exn "boom") (.success "") {}).pending_action
          = some "analyze_code_logic") :=
  ⟨c9_loop_failures_text_but_classifier_raises.1 "boom" {},
   c9_loop_failures_text_but_classifier_raises.2.2.1 {},
   c9_loop_failures_text_but_classifier_raises.2.2.2 (fun _ => none) (fun _ => false)
     0 "boom" (.success "") {} rfl⟩

/-- C9 counterexample: a transport failure of the model backend during
intent classification is not surfaced as terminal text — the exception
propagates out of `classify_intent`, refuting "no component of the
loop lets an exception from a model call propagate out". -/
theorem c9_counterexample :
    classify_intent (.exn "ConnectionError: refused") {}
      = .error "ConnectionError: refused" := rfl

/-- C10: when the latest user message yields an extractable path that
exists on the filesystem and contains an analysis keyword,
`call_model` (entered with no active final answer) takes the shortcut:
`pendingAction = "analyze_code_logic"` with that path as input,
`finalAnswer` cleared, and the step performs no model call —
`thoughtHistory` and `iterationCount` are unchanged and the result
does not depend on the LLM oracles. -/
theorem c10_code_analysis_shortcut (jp : String → Option Json) (fs : String → Bool)
    (now : Nat) (chat gen : HttpOutcome) (s : AgentState) (p : String)
    (hfa : truthyStr s.final_answer = false)
    (hpath : extract_path_from_text
        (((collect_user_messages s 1).getLast?).getD "") = some p)
    (hne : p.isEmpty = false)
    (hfs : fs p = true)
    (hkw : should_analyze_code (((collect_user_messages s 1).getLast?).getD "") = true) :
    (call_model jp fs now chat gen s).pending_action = some "analyze_code_logic"
    ∧ (call_model jp fs now chat gen s).pending_action_input
        = some (.obj [("path", .str p)])
    ∧ (call_model jp fs now chat gen s).final_answer = none
    ∧ (call_model jp fs now chat gen s).thought_history = s.thought_history
    ∧ (call_model jp fs now chat gen s).iteration_count = s.iteration_count
    ∧ (∀ chat' gen', call_model jp fs now chat' gen' s
        = call_model jp fs now chat gen s) := by
  have hpath' : extract_path_from_text
      (((takeLast 1 (s.messages.filterMap msgText)).getLast?).getD "") = some p := hpath
  have hkw' : should_analyze_code
      (((takeLast 1 (s.messages.filterMap msgText)).getLast?).getD "") = true := hkw
  have hts : ∀ x : String, truthyStr (some x) = !x.isEmpty := fun _ => rfl
  have hvt : ∀ x : String, valid_target_path fs (some x)
      = if x.isEmpty then false else fs x := fun _ => rfl
  refine ⟨?_, ?_, ?_, ?_, ?_, ?_⟩ <;>
  · unfold call_model
    cases hst : s.start_time <;>
      simp [check_runtime_limit, hst, hfa, collect_user_messages, hpath', hkw', hts,
        hvt, hne, hfs]

/-- Witness for C10: the message `Please analyze "/tmp/m.py"` with a
filesystem containing `/tmp/m.py` triggers the shortcut without a
model call. -/
theorem c10_code_analysis_shortcut_witness :
    extract_path_from_text
        (((collect_user_messages
            { messages := [Msg.typed "human" "Please analyze \"/tmp/m.py\""] }
            1).getLast?).getD "")
      = some "/tmp/m.py"
    ∧ should_analyze_code
        (((collect_user_messages
            { messages := [Msg.typed "human" "Please analyze \"/tmp/m.py\""] }
            1).getLast?).getD "") = true
    ∧ (call_model (fun _ => none) (fun q => q == "/tmp/m.py") 0
        (.success "ignored") (.success "")
        { messages := [Msg.typed "human" "Please analyze \"/tmp/m.py\""] }).pending_action
      = some "analyze_code_logic"
    ∧ (call_model (fun _ => none) (fun q => q == "/tmp/m.py") 0
        (.success "ignored") (.success "")
        { messages := [Msg.typed "human" "Please analyze \"/tmp/m.py\""] }).iteration_count
      = ({ messages := [Msg.typed "human" "Please analyze \"/tmp/m.py\""] }
          : AgentState).iteration_count :=
  ⟨by decide, by decide,
   (c10_code_analysis_shortcut (fun _ => none) (fun q => q == "/tmp/m.py") 0
     (.success "ignored") (.success "")
     { messages := [Msg.typed "human" "Please analyze \"/tmp/m.py\""] } "/tmp/m.py"
     rfl (by decide) (by decide) (by decide) (by decide)).1,
   (c10_code_analysis_shortcut (fun _ => none) (fun q => q == "/tmp/m.py") 0
     (.success "ignored") (.success "")
     { messages := [Msg.typed "human" "Please analyze \"/tmp/m.py\""] } "/tmp/m.py"
     rfl (by decide) (by decide) (by decide) (by decide)).2.2.2.2.1⟩
